import Mathlib

/-!
Verification of the DeepDive Analyst research-quality control loop.

This file shallowly embeds the dynamic scoring engine
(`src/agents/scoring_manager.py`), the query classifier
(`src/agents/base_agents.py`) and the iteration-control workflow
(`src/workflows/langgraph_workflow.py`) of the repository, and proves the
properties stated about them.

Modelling conventions:
* Python `float` arithmetic is modelled by exact rational arithmetic (`ℚ`);
  Python `int` by `ℤ`; counts by `ℕ`.
* Python `round` (banker's rounding, half to even) is modelled by `pyRound`.
* `re.IGNORECASE`/`str.lower()` are modelled by ASCII case folding
  (`lowerChar`); the contradiction markers and all concrete inputs used in
  the theorems are unaffected by non-ASCII case folding.
* Python `\w` (word character, Unicode by default in Python 3) is modelled
  as ASCII alphanumeric, underscore, or any non-ASCII character.
* The query-side helpers `_extract_key_concepts` and `_extract_keywords`
  are kept abstract: their result lists become an explicit parameter
  (`QueryExtraction`), and the theorems quantify over every possible
  extraction result.  Where a proof needs it we assume that each extracted
  concept is a nonempty string containing a non-whitespace character,
  which the source regexes guarantee (every pattern alternative matches at
  least two word characters, and word characters are never whitespace).
-/

namespace DeepDive

/-- Code points of Python whitespace (the set recognised by `str.strip`,
`str.split()` and `str.isspace`). -/
def pySpaceCodes : List ℕ :=
  [9, 10, 11, 12, 13, 28, 29, 30, 31, 32, 133, 160, 5760,
   8192, 8193, 8194, 8195, 8196, 8197, 8198, 8199, 8200, 8201, 8202,
   8232, 8233, 8239, 8287, 12288]

/-- Is `c` Python whitespace? -/
def isPySpace (c : Char) : Bool := decide (c.toNat ∈ pySpaceCodes)

/-- Models `s.strip()` on a list of characters: drop whitespace from both ends. -/
def pyStrip (l : List Char) : List Char :=
  ((l.dropWhile isPySpace).reverse.dropWhile isPySpace).reverse

/-- ASCII case folding; models `str.lower()` / `re.IGNORECASE` matching of
the literal marker strings used by the scoring manager. -/
def lowerChar (c : Char) : Char :=
  if 65 ≤ c.toNat && c.toNat ≤ 90 then Char.ofNat (c.toNat + 32) else c

/-- Lowercase a character list. -/
def pyLower (l : List Char) : List Char := l.map lowerChar

/-- Does `pat` occur as a leading segment of `s`?  (Literal match of a
pattern at the current scan position.) -/
def matchesAt : List Char → List Char → Bool
  | [], _ => true
  | _ :: _, [] => false
  | a :: as, b :: bs => a == b && matchesAt as bs

/-- Python `pat in text`: `pat` occurs contiguously somewhere in `s`. -/
def hasSub (pat : List Char) : List Char → Bool
  | [] => matchesAt pat []
  | c :: rest => matchesAt pat (c :: rest) || hasSub pat rest

/-- Models `concept.lower() in research_data.lower()`. -/
def containsLower (pat : String) (data : String) : Bool :=
  hasSub (pyLower pat.data) (pyLower data.data)

/-- First alternative of `alts` that matches at the head of `s` — the
alternation preference order of a Python regex `(a|b|…)`. -/
def firstAlt (alts : List (List Char)) (s : List Char) : Option (List Char) :=
  alts.find? (fun a => matchesAt a s)

/-- Fuel-indexed scanner for `re.findall` with a literal-alternation
pattern: scan left to right; at each position take the first alternative
that matches, count it and resume after it, otherwise advance one
character.  `fuel ≥ s.length` makes the fuel irrelevant. -/
def countAltGo (alts : List (List Char)) : Nat → List Char → Nat
  | 0, _ => 0
  | _ + 1, [] => 0
  | fuel + 1, c :: rest =>
    match firstAlt alts (c :: rest) with
    | some a => 1 + countAltGo alts fuel (List.drop a.length (c :: rest))
    | none => countAltGo alts fuel rest

/-- Number of non-overlapping, leftmost matches of the alternation `alts`
in `s` (the length of `re.findall(r"(a|b|…)", s)`). -/
def countAlt (alts : List (List Char)) (s : List Char) : Nat :=
  countAltGo alts s.length s

/-- Models `str.split('\n')`: always at least one piece, empty pieces kept. -/
def splitNl : List Char → List (List Char)
  | [] => [[]]
  | c :: rest =>
    let r := splitNl rest
    if c == '\n' then [] :: r
    else
      match r with
      | [] => [[c]]
      | h :: t => (c :: h) :: t

/-- Word characters for Python-3 `\b`/`\w` (Unicode `\w` approximated as:
ASCII alphanumeric, underscore, or any non-ASCII code point). -/
def isWordChar (c : Char) : Bool :=
  c.isAlphanum || c == '_' || 127 < c.toNat

/-- Fuel-indexed scanner counting matches of
`\b[A-Z][a-zA-Z]*[A-Z][a-zA-Z]*\b` (the "tech term" pattern of
`_calculate_information_density`): a maximal ASCII-alphabetic run matches
iff it starts at a word boundary with an uppercase letter, contains at
least two uppercase letters, and ends at a word boundary. -/
def camelGo : Nat → Bool → List Char → Nat
  | 0, _, _ => 0
  | _ + 1, _, [] => 0
  | fuel + 1, prevWord, c :: rest =>
    if !prevWord && c.isUpper then
      let run := List.takeWhile Char.isAlpha (c :: rest)
      let after := List.dropWhile Char.isAlpha (c :: rest)
      let boundaryOk := match after with
        | [] => true
        | d :: _ => !isWordChar d
      let hit := if 2 ≤ (run.filter Char.isUpper).length && boundaryOk then 1 else 0
      hit + camelGo fuel true after
    else
      camelGo fuel (isWordChar c) rest

/-- Models `len(re.findall(r"\b[A-Z][a-zA-Z]*[A-Z][a-zA-Z]*\b", s))`. -/
def camelCaseCount (s : List Char) : Nat := camelGo s.length false s

/-- Models `len(s.split())`: number of maximal non-whitespace runs. -/
def wordsGo : Bool → List Char → Nat
  | _, [] => 0
  | inWord, c :: rest =>
    if isPySpace c then wordsGo false rest
    else (if inWord then 0 else 1) + wordsGo true rest

/-- Models `len(research_data.split())`. -/
def pyWordCount (s : List Char) : Nat := wordsGo false s

/-- Python `round(q)`: round half to even, over exact rationals. -/
def pyRound (q : ℚ) : ℤ :=
  if q - (⌊q⌋ : ℚ) < 1 / 2 then ⌊q⌋
  else if 1 / 2 < q - (⌊q⌋ : ℚ) then ⌊q⌋ + 1
  else if ⌊q⌋ % 2 = 0 then ⌊q⌋ else ⌊q⌋ + 1

/-- Python `round(q, 1)`: round to one decimal place. -/
def pyRound1 (q : ℚ) : ℚ := (pyRound (q * 10) : ℚ) / 10

/-! ## src/agents/scoring_manager.py -/

/-- Models `QualityMetrics` dataclass of `scoring_manager.py`
(`coverage_frac` embeds the field called coverage ratio in the source). -/
structure QualityMetrics where
  information_density : ℚ
  consistency_score : ℚ
  completeness_score : ℚ
  relevance_score : ℚ
  contradiction_count : ℕ
  coverage_frac : ℚ
  deriving DecidableEq, Repr

/-- The result lists of `_extract_key_concepts` and `_extract_keywords`
applied to `original_query`.  The extraction itself (pure regex heuristics
over the query string) is kept abstract; every theorem quantifies over all
possible extraction results. -/
structure QueryExtraction where
  concepts : List String
  keywords : List String

/-- Models `_calculate_information_density`. -/
def calculate_information_density (research_data : String) : ℚ :=
  if pyStrip research_data.data = [] then 0
  else
    let lines := splitNl research_data.data
    let meaningful_lines := lines.filter (fun l => 10 < (pyStrip l).length)
    let tech_terms := camelCaseCount research_data.data
    let total_words := pyWordCount research_data.data
    let density := (meaningful_lines.length : ℚ) / (lines.length : ℚ) * (6 / 10) +
      (tech_terms : ℚ) / (max total_words 1 : ℕ) * (4 / 10)
    min density 1

/-- The four `contradiction_patterns` of `_calculate_consistency_score`,
each an alternation of literal markers (given lowercase, as matched under
`re.IGNORECASE`). -/
def contradiction_patterns : List (List (List Char)) :=
  [[ "但是".data, "然而".data, "不过".data, "但是".data, "however".data, "but".data ],
   [ "相反".data, "相反地".data, "on the contrary".data ],
   [ "不一致".data, "矛盾".data, "inconsistent".data, "contradict".data ],
   [ "错误".data, "错误地".data, "incorrect".data, "wrong".data ]]

/-- Total number of matches of the four contradiction patterns in
`research_data` (the sum computed inside `_calculate_consistency_score`). -/
def consistency_pattern_count (research_data : String) : ℕ :=
  (contradiction_patterns.map
    (fun p => countAlt p (pyLower research_data.data))).sum

/-- Models `_calculate_consistency_score`. -/
def calculate_consistency_score (research_data : String) : ℚ :=
  if pyStrip research_data.data = [] then 0
  else
    let contradiction_count := consistency_pattern_count research_data
    let consistency := max 0 (1 - (contradiction_count : ℚ) * (1 / 10))
    min consistency 1

/-- Models `_calculate_completeness_score` (query concepts passed explicitly). -/
def calculate_completeness_score (research_data : String)
    (query_concepts : List String) : ℚ :=
  if pyStrip research_data.data = [] then 0
  else
    let covered_concepts :=
      (query_concepts.filter (fun c => containsLower c research_data)).length
    let coverage := (covered_concepts : ℚ) / (max query_concepts.length 1 : ℕ)
    let length_factor := min ((research_data.data.length : ℚ) / 1000) 1
    min (coverage * (7 / 10) + length_factor * (3 / 10)) 1

/-- Models `_calculate_relevance_score` (query keywords passed explicitly). -/
def calculate_relevance_score (research_data : String)
    (query_keywords : List String) : ℚ :=
  if pyStrip research_data.data = [] then 0
  else
    let hits :=
      (query_keywords.filter (fun k => containsLower k research_data)).length
    min ((hits : ℚ) / (max query_keywords.length 1 : ℕ)) 1

/-- The `contradiction_indicators` list of `_count_contradictions`
(verbatim, including the duplicated `但是`), lowercase. -/
def contradiction_indicators : List (List Char) :=
  [ "但是".data, "然而".data, "不过".data, "但是".data, "however".data, "but".data,
    "相反".data, "相反地".data, "on the contrary".data,
    "不一致".data, "矛盾".data, "inconsistent".data, "contradict".data,
    "错误".data, "错误地".data, "incorrect".data, "wrong".data ]

/-- Models `_count_contradictions`: each indicator is counted separately
(`re.findall(re.escape(ind), data, re.IGNORECASE)`), then summed. -/
def count_contradictions (research_data : String) : ℕ :=
  (contradiction_indicators.map
    (fun ind => countAlt [ind] (pyLower research_data.data))).sum

/-- Models `_calculate_coverage_ratio` (no empty-input guard in the source). -/
def calculate_coverage (research_data : String)
    (query_concepts : List String) : ℚ :=
  let covered_concepts :=
    (query_concepts.filter (fun c => containsLower c research_data)).length
  (covered_concepts : ℚ) / (max query_concepts.length 1 : ℕ)

/-- Models `_assess_information_quality`. -/
def assess_information_quality (research_data : String)
    (qe : QueryExtraction) : QualityMetrics :=
  { information_density := calculate_information_density research_data
    consistency_score := calculate_consistency_score research_data
    completeness_score := calculate_completeness_score research_data qe.concepts
    relevance_score := calculate_relevance_score research_data qe.keywords
    contradiction_count := count_contradictions research_data
    coverage_frac := calculate_coverage research_data qe.concepts }

/-- The critique-standards dictionary returned by
`_get_progressive_critique_standards`. -/
structure CritiqueStandards where
  focus : String
  threshold : ℚ
  tolerance : ℚ
  emphasis : String
  deriving DecidableEq, Repr

/-- Models `_get_progressive_critique_standards`. -/
def get_progressive_critique_standards (iteration : ℤ) : CritiqueStandards :=
  if iteration = 1 then
    { focus := "基础信息完整性", threshold := 6, tolerance := 8 / 10,
      emphasis := "completeness" }
  else if iteration = 2 then
    { focus := "信息准确性", threshold := 7, tolerance := 7 / 10,
      emphasis := "accuracy" }
  else if iteration = 3 then
    { focus := "深度分析", threshold := 8, tolerance := 6 / 10,
      emphasis := "consistency" }
  else
    { focus := "综合质量", threshold := 8, tolerance := 5 / 10,
      emphasis := "overall" }

/-- The adjustment-factor dictionary of `_calculate_adjustment_factors`. -/
structure AdjustmentFactors where
  iteration_bonus : ℚ
  complexity_penalty : ℚ
  consistency_bonus : ℚ
  density_bonus : ℚ
  deriving DecidableEq, Repr

/-- Models `_calculate_adjustment_factors`. -/
def calculate_adjustment_factors (iteration : ℤ)
    (quality_metrics : QualityMetrics) : AdjustmentFactors :=
  { iteration_bonus :=
      if iteration ≤ 2 then ((3 - iteration : ℤ) : ℚ) * (5 / 10) else 0
    complexity_penalty :=
      if 2 < iteration then ((iteration - 2 : ℤ) : ℚ) * (2 / 10) else 0
    consistency_bonus :=
      if 8 / 10 < quality_metrics.consistency_score then 3 / 10
      else if 6 / 10 < quality_metrics.consistency_score then 1 / 10
      else 0
    density_bonus :=
      if 7 / 10 < quality_metrics.information_density then 2 / 10
      else if 5 / 10 < quality_metrics.information_density then 1 / 10
      else 0 }

/-- The `base_scores` dictionary (keys `completeness`, `accuracy`). -/
structure BaseScores where
  completeness : ℤ
  accuracy : ℤ
  deriving DecidableEq, Repr

/-- One entry of `_apply_dynamic_adjustment`: apply the total adjustment,
round to the nearest integer, clamp to [1, 10]. -/
def adjust_score (base_score : ℤ) (f : AdjustmentFactors) : ℤ :=
  let total_adjustment :=
    f.iteration_bonus + f.consistency_bonus + f.density_bonus -
      f.complexity_penalty
  max 1 (min 10 (pyRound ((base_score : ℚ) + total_adjustment)))

/-- Models `_apply_dynamic_adjustment` over the two score keys. -/
def apply_dynamic_adjustment (base_scores : BaseScores)
    (f : AdjustmentFactors) : BaseScores :=
  { completeness := adjust_score base_scores.completeness f
    accuracy := adjust_score base_scores.accuracy f }

/-- Models `_calculate_overall_score`: weighted sum, rounded to one decimal. -/
def calculate_overall_score (adjusted_scores : BaseScores)
    (quality_metrics : QualityMetrics) : ℚ :=
  pyRound1 ((adjusted_scores.completeness : ℚ) * (3 / 10) +
    (adjusted_scores.accuracy : ℚ) * (3 / 10) +
    quality_metrics.consistency_score * 10 * (2 / 10) +
    quality_metrics.relevance_score * 10 * (2 / 10))

/-- Models `_determine_research_continuation`: the four rules in source order,
first applicable rule deciding. -/
def determine_research_continuation (overall_score : ℚ) (iteration : ℤ)
    (quality_metrics : QualityMetrics)
    (critique_standards : CritiqueStandards) : Bool :=
  let adjusted_threshold :=
    critique_standards.threshold * critique_standards.tolerance
  if overall_score < adjusted_threshold then true
  else if 3 < quality_metrics.contradiction_count then true
  else if quality_metrics.coverage_frac < 6 / 10 then true
  else if 3 ≤ iteration then false
  else false

/-- The result dictionary of `calculate_dynamic_score`. -/
structure ScoringResult where
  completeness_score : ℤ
  accuracy_score : ℤ
  overall_score : ℚ
  needs_more_research : Bool
  quality_metrics : QualityMetrics
  adjustment_factors : AdjustmentFactors
  critique_standards : CritiqueStandards
  iteration : ℤ
  deriving DecidableEq, Repr

/-- Models `DynamicScoringManager.calculate_dynamic_score` (the appended scoring
history is observational only and not modelled). -/
def calculate_dynamic_score (base_scores : BaseScores) (iteration : ℤ)
    (research_data : String) (qe : QueryExtraction) : ScoringResult :=
  let quality_metrics := assess_information_quality research_data qe
  let critique_standards := get_progressive_critique_standards iteration
  let adjustment_factors := calculate_adjustment_factors iteration quality_metrics
  let adjusted_scores := apply_dynamic_adjustment base_scores adjustment_factors
  let overall_score := calculate_overall_score adjusted_scores quality_metrics
  let needs_more_research := determine_research_continuation
    overall_score iteration quality_metrics critique_standards
  { completeness_score := adjusted_scores.completeness
    accuracy_score := adjusted_scores.accuracy
    overall_score := overall_score
    needs_more_research := needs_more_research
    quality_metrics := quality_metrics
    adjustment_factors := adjustment_factors
    critique_standards := critique_standards
    iteration := iteration }

/-! ## src/agents/base_agents.py — query classifier -/

/-- Models `AgentResult` of `base_agents.py` (the fields `classify_query`
inspects). -/
structure AgentResult where
  result : String
  success : Bool
  error_message : String
  deriving DecidableEq, Repr

/-- Models `BaseAgent.execute_task`: the whole body runs inside one
`try/except Exception`; a throwing underlying call (`crew.kickoff`)
produces `AgentResult(success=False, error_message=str(e))`, a successful
call produces `AgentResult(result, success=True)`.  The underlying LLM
call is abstracted as an `Except` value (`.error e` = the call threw). -/
def execute_task (call_outcome : Except String String) : AgentResult :=
  match call_outcome with
  | .ok r => { result := r, success := true, error_message := "" }
  | .error e => { result := "", success := false, error_message := e }

/-- Models `result.result.strip().lower()` as computed in `classify_query`. -/
def strip_lower (s : String) : String := String.mk (pyLower (pyStrip s.data))

/-- The four accepted intent labels. -/
def intent_labels : List String := ["comparison", "deep_dive", "survey", "tutorial"]

/-- Models `QueryClassifierAgent.classify_query`: on a successful call, accept a
known label (after strip/lower) and otherwise default to `deep_dive`; on a
failed call (`result.success` false, which is what a throwing underlying
call produces) log and return the default `deep_dive`.  The function never
raises. -/
def classify_query (call_outcome : Except String String) : String :=
  let result := execute_task call_outcome
  if result.success then
    let classification := strip_lower result.result
    if classification ∈ intent_labels then classification
    else "deep_dive"
  else "deep_dive"

/-! ## src/workflows/langgraph_workflow.py -/

/-- The fields of `GraphState` touched by the nodes modelled here. -/
structure GraphState where
  original_query : String
  intent : String
  plan : String
  research_queries : List String
  researched_data : String
  research_iteration : ℕ
  max_iterations : ℕ
  critique_feedback : String
  needs_more_research : Bool
  final_report : String
  error_message : String
  success : Bool
  deriving DecidableEq, Repr

/-- The initial state built by `LangGraphWorkflow.execute`. -/
def initial_state (query : String) (max_iterations : ℕ) : GraphState :=
  { original_query := query, intent := "", plan := "", research_queries := []
    researched_data := "", research_iteration := 0
    max_iterations := max_iterations, critique_feedback := ""
    needs_more_research := false, final_report := "", error_message := ""
    success := true }

/-- Models `_classify_node`: `classify_query` returns a default instead of
raising on a failed underlying call, so the node's `except` branch is
unreachable and the node always records the returned intent with
`success = True`. -/
def classify_node (call_outcome : Except String String)
    (state : GraphState) : GraphState :=
  { state with intent := classify_query call_outcome, success := true }

/-- The planner's result dictionary (`create_research_plan`), with the
search queries extracted from the plan kept abstract. -/
structure PlanOutcome where
  success : Bool
  plan : String
  queries : List String
  error : String

/-- Models `_plan_node`. -/
def plan_node (o : PlanOutcome) (state : GraphState) : GraphState :=
  if o.success then
    { state with plan := o.plan, research_queries := o.queries, success := true }
  else
    { state with error_message := o.error, success := false }

/-- The researcher's result dictionary (`research_topic`); a raising
researcher is modelled as `success := false` with the exception text as
`error`, matching the node's `except` branch. -/
structure ResearchOutcome where
  success : Bool
  research_data : String
  error : String

/-- Models `_research_node`: increment `research_iteration` first, then consult
the researcher; on success append the findings (with the
`--- 第N轮研究 ---` header when data is already accumulated), on failure
record the error without rolling back the increment. -/
def research_node (o : ResearchOutcome) (state : GraphState) : GraphState :=
  let state := { state with research_iteration := state.research_iteration + 1 }
  if o.success then
    let new_data := o.research_data
    let existing_data := state.researched_data
    if existing_data ≠ "" then
      { state with
        researched_data := existing_data ++ "\n\n--- 第" ++
          toString state.research_iteration ++ "轮研究 ---\n" ++ new_data
        success := true }
    else
      { state with researched_data := new_data, success := true }
  else
    { state with error_message := o.error, success := false }

/-- The critic's result dictionary (`critique_research`). -/
structure CritiqueOutcome where
  success : Bool
  critique : String
  needs_more_research : Bool
  error : String

/-- Models `_critique_node`. -/
def critique_node (o : CritiqueOutcome) (state : GraphState) : GraphState :=
  if o.success then
    { state with critique_feedback := o.critique
                 needs_more_research := o.needs_more_research
                 success := true }
  else
    { state with error_message := o.error, success := false }

/-- Models `_should_continue` (`true` = the edge labelled `"continue"`, `false` =
`"finish"`): error check first, then the `max_iterations` ceiling, then
the critic's verdict. -/
def should_continue (state : GraphState) : Bool :=
  if state.success = false then false
  else if state.max_iterations ≤ state.research_iteration then false
  else state.needs_more_research

/-- The writer's outcome for `_write_report_node` (`.error` = raised). -/
def write_report_node (o : Except String String)
    (state : GraphState) : GraphState :=
  match o with
  | .ok report => { state with final_report := report, success := true }
  | .error e => { state with error_message := e, success := false }

/-- The research/critique cycle of the compiled graph: run `research` then
`critique`, loop back while `_should_continue` says `"continue"`.  The
researcher and critic are oracles indexed by the iteration number; the
fuel only bounds recursion and is irrelevant once it exceeds the number of
passes the ceiling admits. -/
def research_critique_loop (research : ℕ → ResearchOutcome)
    (critic : ℕ → CritiqueOutcome) : ℕ → GraphState → GraphState
  | 0, state => state
  | fuel + 1, state =>
    let s1 := research_node (research state.research_iteration) state
    let s2 := critique_node (critic s1.research_iteration) s1
    if should_continue s2 then research_critique_loop research critic fuel s2
    else s2

/-- Models `LangGraphWorkflow.execute` for one invocation of the compiled graph:
classify → plan → (research ⇄ critique) → write_report, with all external
agents abstracted as oracles. -/
def run_workflow (classifier_call : Except String String) (planner : PlanOutcome)
    (research : ℕ → ResearchOutcome) (critic : ℕ → CritiqueOutcome)
    (writer : Except String String) (query : String)
    (max_iterations : ℕ) : GraphState :=
  let s0 := initial_state query max_iterations
  let s1 := classify_node classifier_call s0
  let s2 := plan_node planner s1
  let s3 := research_critique_loop research critic (max_iterations + 1) s2
  write_report_node writer s3

/-! ## Helper lemmas -/

theorem pyRound_ge (q : ℚ) : q - 1 / 2 ≤ (pyRound q : ℚ) := by
  have h1 : ((⌊q⌋ : ℤ) : ℚ) ≤ q := Int.floor_le q
  have h2 : q < (⌊q⌋ : ℚ) + 1 := Int.lt_floor_add_one q
  unfold pyRound
  split_ifs <;> push_cast <;> linarith

theorem pyRound_le (q : ℚ) : (pyRound q : ℚ) ≤ q + 1 / 2 := by
  have h1 : ((⌊q⌋ : ℤ) : ℚ) ≤ q := Int.floor_le q
  have h2 : q < (⌊q⌋ : ℚ) + 1 := Int.lt_floor_add_one q
  unfold pyRound
  split_ifs <;> push_cast <;> linarith

theorem pyRound1_bounds {q : ℚ} (h1 : 3 / 5 ≤ q) (h2 : q ≤ 10) :
    3 / 5 ≤ pyRound1 q ∧ pyRound1 q ≤ 10 := by
  have hg := pyRound_ge (q * 10)
  have hl := pyRound_le (q * 10)
  have h5 : (5 : ℤ) < pyRound (q * 10) := by
    have : (5 : ℚ) < (pyRound (q * 10) : ℚ) := by linarith
    exact_mod_cast this
  have h100 : pyRound (q * 10) ≤ (100 : ℤ) := by
    have : (pyRound (q * 10) : ℚ) < 101 := by linarith
    have h' : pyRound (q * 10) < (101 : ℤ) := by exact_mod_cast this
    omega
  have h6 : (6 : ℤ) ≤ pyRound (q * 10) := by omega
  constructor
  · unfold pyRound1
    have : (6 : ℚ) ≤ (pyRound (q * 10) : ℚ) := by exact_mod_cast h6
    linarith
  · unfold pyRound1
    have : (pyRound (q * 10) : ℚ) ≤ 100 := by exact_mod_cast h100
    linarith

theorem adjust_score_bounds (b : ℤ) (f : AdjustmentFactors) :
    1 ≤ adjust_score b f ∧ adjust_score b f ≤ 10 := by
  unfold adjust_score
  exact ⟨le_max_left _ _, max_le (by norm_num) (min_le_left _ _)⟩

theorem consistency_score_bounds (s : String) :
    0 ≤ calculate_consistency_score s ∧ calculate_consistency_score s ≤ 1 := by
  unfold calculate_consistency_score
  split
  · norm_num
  · exact ⟨le_min (le_max_left 0 _) zero_le_one, min_le_right _ 1⟩

theorem relevance_score_bounds (s : String) (kw : List String) :
    0 ≤ calculate_relevance_score s kw ∧ calculate_relevance_score s kw ≤ 1 := by
  unfold calculate_relevance_score
  split
  · norm_num
  · exact ⟨le_min (div_nonneg (Nat.cast_nonneg _) (Nat.cast_nonneg _)) zero_le_one,
      min_le_right _ 1⟩

theorem char_ofNat_toNat_ascii (n : ℕ) (h1 : 97 ≤ n) (h2 : n ≤ 122) :
    (Char.ofNat n).toNat = n := by
  interval_cases n <;> decide

theorem isPySpace_lowerChar (c : Char) : isPySpace (lowerChar c) = isPySpace c := by
  unfold lowerChar
  split
  · rename_i h
    simp only [Bool.and_eq_true, decide_eq_true_eq] at h
    have ht : (Char.ofNat (c.toNat + 32)).toNat = c.toNat + 32 :=
      char_ofNat_toNat_ascii _ (by omega) (by omega)
    unfold isPySpace
    rw [ht, decide_eq_decide]
    unfold pySpaceCodes
    simp only [List.mem_cons, List.not_mem_nil, or_false]
    omega
  · rfl

theorem matchesAt_mem {pat s : List Char} (h : matchesAt pat s = true) :
    ∀ x ∈ pat, x ∈ s := by
  induction pat generalizing s with
  | nil => simp
  | cons a as ih =>
    cases s with
    | nil => simp [matchesAt] at h
    | cons b bs =>
      simp only [matchesAt, Bool.and_eq_true, beq_iff_eq] at h
      obtain ⟨rfl, h2⟩ := h
      intro x hx
      rcases List.mem_cons.mp hx with rfl | hx'
      · exact List.mem_cons_self _ _
      · exact List.mem_cons_of_mem _ (ih h2 x hx')

theorem hasSub_mem {pat s : List Char} (h : hasSub pat s = true) :
    ∀ x ∈ pat, x ∈ s := by
  induction s with
  | nil =>
    cases pat with
    | nil => simp
    | cons a as => simp [hasSub, matchesAt] at h
  | cons c rest ih =>
    simp only [hasSub, Bool.or_eq_true] at h
    rcases h with h | h
    · exact matchesAt_mem h
    · exact fun x hx => List.mem_cons_of_mem _ (ih h x hx)

theorem hasSub_eq_false_of_space {pat s : List Char}
    (hs : ∀ c ∈ s, isPySpace c = true) (hp : ∃ x ∈ pat, isPySpace x = false) :
    hasSub pat s = false := by
  by_contra h
  rw [Bool.not_eq_false] at h
  obtain ⟨x, hxp, hxf⟩ := hp
  have hxs := hasSub_mem h x hxp
  rw [hs x hxs] at hxf
  cases hxf

theorem countAltGo_space {alts : List (List Char)}
    (ha : ∀ a ∈ alts, ∃ x ∈ a, isPySpace x = false) :
    ∀ (fuel : ℕ) (s : List Char), (∀ c ∈ s, isPySpace c = true) →
      countAltGo alts fuel s = 0 := by
  intro fuel
  induction fuel with
  | zero => intro s _; rfl
  | succ n ih =>
    intro s hs
    cases s with
    | nil => rfl
    | cons c rest =>
      have hnone : firstAlt alts (c :: rest) = none := by
        unfold firstAlt
        cases hfind : List.find? (fun a => matchesAt a (c :: rest)) alts with
        | none => rfl
        | some a =>
          have hmatch := List.find?_some hfind
          have hmem := List.mem_of_find?_eq_some hfind
          obtain ⟨x, hxa, hxf⟩ := ha a hmem
          have hxin : x ∈ c :: rest := matchesAt_mem hmatch x hxa
          rw [hs x hxin] at hxf
          cases hxf
      unfold countAltGo
      rw [hnone]
      exact ih rest (fun d hd => hs d (List.mem_cons_of_mem _ hd))

theorem pyLower_space {l : List Char} (h : ∀ c ∈ l, isPySpace c = true) :
    ∀ c ∈ pyLower l, isPySpace c = true := by
  intro c hc
  obtain ⟨d, hd, rfl⟩ := List.mem_map.mp hc
  rw [isPySpace_lowerChar]
  exact h d hd

theorem pyStrip_eq_nil_iff {l : List Char} :
    pyStrip l = [] ↔ ∀ c ∈ l, isPySpace c = true := by
  unfold pyStrip
  rw [List.reverse_eq_nil_iff, List.dropWhile_eq_nil_iff]
  constructor
  · intro h c hc
    rw [← List.takeWhile_append_dropWhile (p := isPySpace) (l := l)] at hc
    rcases List.mem_append.mp hc with h1 | h2
    · exact List.mem_takeWhile_imp h1
    · exact h c (List.mem_reverse.mpr h2)
  · intro h c hc
    exact h c ((List.dropWhile_sublist _).subset (List.mem_reverse.mp hc))

theorem containsLower_eq_false_of_space {c data : String}
    (hdata : ∀ x ∈ data.data, isPySpace x = true)
    (hc : ∃ x ∈ c.data, isPySpace x = false) :
    containsLower c data = false := by
  unfold containsLower
  apply hasSub_eq_false_of_space (pyLower_space hdata)
  obtain ⟨x, hx, hxf⟩ := hc
  exact ⟨lowerChar x, List.mem_map_of_mem _ hx, by rw [isPySpace_lowerChar]; exact hxf⟩

theorem containsLower_empty_of_ne {c : String} (h : c ≠ "") :
    containsLower c "" = false := by
  have hd : c.data ≠ [] := fun hh => h (String.ext hh)
  unfold containsLower
  cases hcd : c.data with
  | nil => exact absurd hcd hd
  | cons a as => rfl

theorem coverage_zero_of_no_hit {data : String} {concepts : List String}
    (h : ∀ c ∈ concepts, containsLower c data = false) :
    calculate_coverage data concepts = 0 := by
  unfold calculate_coverage
  rw [List.filter_eq_nil_iff.mpr (fun c hc => by rw [h c hc]; exact Bool.false_ne_true)]
  simp

theorem count_contradictions_space {data : String}
    (h : ∀ c ∈ data.data, isPySpace c = true) :
    count_contradictions data = 0 := by
  unfold count_contradictions
  apply List.sum_eq_zero
  intro x hx
  obtain ⟨ind, hind, rfl⟩ := List.mem_map.mp hx
  unfold countAlt
  apply countAltGo_space _ _ _ (pyLower_space h)
  intro a ha
  rw [List.mem_singleton] at ha
  subst ha
  fin_cases hind <;> decide

/-- On empty or whitespace-only `research_data` all quality metrics are the
documented zero defaults (the concepts extracted from the query always
contain a non-whitespace character, here an explicit hypothesis). -/
theorem assess_space_zero (research_data : String) (qe : QueryExtraction)
    (hdata : pyStrip research_data.data = [])
    (hconc : ∀ c ∈ qe.concepts, ∃ x ∈ c.data, isPySpace x = false) :
    assess_information_quality research_data qe =
      { information_density := 0, consistency_score := 0, completeness_score := 0,
        relevance_score := 0, contradiction_count := 0, coverage_frac := 0 } := by
  have hsp : ∀ c ∈ research_data.data, isPySpace c = true :=
    pyStrip_eq_nil_iff.mp hdata
  have h1 : calculate_information_density research_data = 0 := by
    unfold calculate_information_density; rw [if_pos hdata]
  have h2 : calculate_consistency_score research_data = 0 := by
    unfold calculate_consistency_score; rw [if_pos hdata]
  have h3 : calculate_completeness_score research_data qe.concepts = 0 := by
    unfold calculate_completeness_score; rw [if_pos hdata]
  have h4 : calculate_relevance_score research_data qe.keywords = 0 := by
    unfold calculate_relevance_score; rw [if_pos hdata]
  have h5 : count_contradictions research_data = 0 := count_contradictions_space hsp
  have h6 : calculate_coverage research_data qe.concepts = 0 :=
    coverage_zero_of_no_hit (fun c hc =>
      containsLower_eq_false_of_space hsp (hconc c hc))
  unfold assess_information_quality
  rw [h1, h2, h3, h4, h5, h6]

theorem splitNl_length_pos (l : List Char) : 1 ≤ (splitNl l).length := by
  induction l with
  | nil => simp [splitNl]
  | cons c rest ih =>
    unfold splitNl
    split
    · simp
    · cases hr : splitNl rest with
      | nil => simp
      | cons h t => simp

theorem determine_true_of_low_coverage (overall : ℚ) (iteration : ℤ)
    (qm : QualityMetrics) (cs : CritiqueStandards)
    (h : qm.coverage_frac < 6 / 10) :
    determine_research_continuation overall iteration qm cs = true := by
  unfold determine_research_continuation
  dsimp only
  by_cases h1 : overall < cs.threshold * cs.tolerance
  · rw [if_pos h1]
  · rw [if_neg h1]
    by_cases h2 : 3 < qm.contradiction_count
    · rw [if_pos h2]
    · rw [if_neg h2, if_pos h]

theorem research_node_iteration (o : ResearchOutcome) (s : GraphState) :
    (research_node o s).research_iteration = s.research_iteration + 1 := by
  unfold research_node
  dsimp only
  split
  · split <;> rfl
  · rfl

theorem research_node_max (o : ResearchOutcome) (s : GraphState) :
    (research_node o s).max_iterations = s.max_iterations := by
  unfold research_node
  dsimp only
  split
  · split <;> rfl
  · rfl

theorem critique_node_iteration (o : CritiqueOutcome) (s : GraphState) :
    (critique_node o s).research_iteration = s.research_iteration := by
  unfold critique_node
  split <;> rfl

theorem critique_node_max (o : CritiqueOutcome) (s : GraphState) :
    (critique_node o s).max_iterations = s.max_iterations := by
  unfold critique_node
  split <;> rfl

theorem write_report_node_iteration (o : Except String String) (s : GraphState) :
    (write_report_node o s).research_iteration = s.research_iteration := by
  unfold write_report_node
  cases o <;> rfl

theorem should_continue_iff (s : GraphState) :
    should_continue s = true ↔
      s.success = true ∧ s.research_iteration < s.max_iterations ∧
        s.needs_more_research = true := by
  unfold should_continue
  split
  · rename_i h
    simp [h]
  · split
    · rename_i h1 h2
      constructor
      · intro hh; cases hh
      · rintro ⟨-, hlt, -⟩; omega
    · rename_i h1 h2
      rw [Bool.not_eq_false] at h1
      constructor
      · intro hn; exact ⟨h1, by omega, hn⟩
      · rintro ⟨-, -, hn⟩; exact hn

theorem loop_iteration_le (research : ℕ → ResearchOutcome)
    (critic : ℕ → CritiqueOutcome) :
    ∀ (fuel : ℕ) (s : GraphState),
      s.research_iteration < s.max_iterations →
      (research_critique_loop research critic fuel s).research_iteration ≤
          s.max_iterations := by
  intro fuel
  induction fuel with
  | zero => intro s h; exact le_of_lt h
  | succ n ih =>
    intro s h
    show (research_critique_loop research critic (n + 1) s).research_iteration ≤ _
    rw [research_critique_loop]
    set s1 := research_node (research s.research_iteration) s with hs1
    set s2 := critique_node (critic s1.research_iteration) s1 with hs2
    have hiter : s2.research_iteration = s.research_iteration + 1 := by
      rw [hs2, critique_node_iteration, hs1, research_node_iteration]
    have hmax : s2.max_iterations = s.max_iterations := by
      rw [hs2, critique_node_max, hs1, research_node_max]
    split
    · rename_i hsc
      have hlt := (should_continue_iff s2).mp hsc
      calc (research_critique_loop research critic n s2).research_iteration
          ≤ s2.max_iterations := ih s2 hlt.2.1
        _ = s.max_iterations := hmax
    · omega

theorem plan_node_iteration (o : PlanOutcome) (s : GraphState) :
    (plan_node o s).research_iteration = s.research_iteration := by
  unfold plan_node
  split <;> rfl

theorem plan_node_max (o : PlanOutcome) (s : GraphState) :
    (plan_node o s).max_iterations = s.max_iterations := by
  unfold plan_node
  split <;> rfl

/-! ## Claim theorems -/

/-- C1: in `_determine_research_continuation` the rules are checked in the
order (a) low overall score, (b) contradiction count, (c) coverage,
(d) iteration ceiling; since rules (a) and (b) both return `true`, any
state with more than 3 contradictions yields `needs_more_research = true`
at every iteration, including iterations ≥ 3. -/
theorem contradictions_force_continuation (overall_score : ℚ) (iteration : ℤ)
    (qm : QualityMetrics) (cs : CritiqueStandards)
    (h : 3 < qm.contradiction_count) :
    determine_research_continuation overall_score iteration qm cs = true := by
  unfold determine_research_continuation
  dsimp only
  by_cases h1 : overall_score < cs.threshold * cs.tolerance
  · rw [if_pos h1]
  · rw [if_neg h1, if_pos h]

/-- C1 witness: contradiction_count = 5 at iteration = 5 yields `true`. -/
theorem contradictions_force_continuation_witness :
    3 < (5 : ℕ) ∧
    determine_research_continuation 10 5
      { information_density := 0, consistency_score := 0, completeness_score := 0,
        relevance_score := 0, contradiction_count := 5, coverage_frac := 0 }
      (get_progressive_critique_standards 5) = true :=
  ⟨by norm_num, contradictions_force_continuation 10 5 _ _ (by norm_num)⟩

/-- C10: for every iteration ≤ 0, `_get_progressive_critique_standards`
falls through to its `else` branch and returns the strictest standards
{threshold 8, tolerance 0.5, overall focus} — the same as iteration ≥ 4,
not the lenient first-iteration standards. -/
theorem nonpositive_iteration_strictest_standards (i : ℤ) (h : i ≤ 0) :
    get_progressive_critique_standards i =
      { focus := "综合质量", threshold := 8, tolerance := 5 / 10,
        emphasis := "overall" } ∧
    get_progressive_critique_standards i = get_progressive_critique_standards 4 := by
  unfold get_progressive_critique_standards
  rw [if_neg (by omega : ¬ i = 1), if_neg (by omega : ¬ i = 2),
    if_neg (by omega : ¬ i = 3)]
  refine ⟨rfl, ?_⟩
  rw [if_neg (by norm_num : ¬ (4 : ℤ) = 1), if_neg (by norm_num : ¬ (4 : ℤ) = 2),
    if_neg (by norm_num : ¬ (4 : ℤ) = 3)]

/-- C10 witness: iteration 0. -/
theorem nonpositive_iteration_strictest_standards_witness :
    get_progressive_critique_standards 0 =
      { focus := "综合质量", threshold := 8, tolerance := 5 / 10,
        emphasis := "overall" } ∧
    get_progressive_critique_standards 0 = get_progressive_critique_standards 4 :=
  nonpositive_iteration_strictest_standards 0 (by norm_num)

/-- C4: for integer base scores in [1, 10] and iterations in [1, 10], the
dynamically adjusted completeness and accuracy scores (bonus/penalty,
round, clamp) stay in [1, 10]. -/
theorem adjusted_scores_in_range (bs : BaseScores) (iteration : ℤ)
    (qm : QualityMetrics)
    (h1 : 1 ≤ bs.completeness) (h2 : bs.completeness ≤ 10)
    (h3 : 1 ≤ bs.accuracy) (h4 : bs.accuracy ≤ 10)
    (h5 : 1 ≤ iteration) (h6 : iteration ≤ 10) :
    1 ≤ (apply_dynamic_adjustment bs
        (calculate_adjustment_factors iteration qm)).completeness ∧
    (apply_dynamic_adjustment bs
        (calculate_adjustment_factors iteration qm)).completeness ≤ 10 ∧
    1 ≤ (apply_dynamic_adjustment bs
        (calculate_adjustment_factors iteration qm)).accuracy ∧
    (apply_dynamic_adjustment bs
        (calculate_adjustment_factors iteration qm)).accuracy ≤ 10 := by
  have hc := adjust_score_bounds bs.completeness
    (calculate_adjustment_factors iteration qm)
  have ha := adjust_score_bounds bs.accuracy
    (calculate_adjustment_factors iteration qm)
  exact ⟨hc.1, hc.2, ha.1, ha.2⟩

/-- C4 witness: base scores 5/5 at iteration 1. -/
theorem adjusted_scores_in_range_witness :
    1 ≤ (apply_dynamic_adjustment { completeness := 5, accuracy := 5 }
        (calculate_adjustment_factors 1
          { information_density := 0, consistency_score := 0,
            completeness_score := 0, relevance_score := 0,
            contradiction_count := 0, coverage_frac := 0 })).completeness ∧
    (apply_dynamic_adjustment { completeness := 5, accuracy := 5 }
        (calculate_adjustment_factors 1
          { information_density := 0, consistency_score := 0,
            completeness_score := 0, relevance_score := 0,
            contradiction_count := 0, coverage_frac := 0 })).completeness ≤ 10 ∧
    1 ≤ (apply_dynamic_adjustment { completeness := 5, accuracy := 5 }
        (calculate_adjustment_factors 1
          { information_density := 0, consistency_score := 0,
            completeness_score := 0, relevance_score := 0,
            contradiction_count := 0, coverage_frac := 0 })).accuracy ∧
    (apply_dynamic_adjustment { completeness := 5, accuracy := 5 }
        (calculate_adjustment_factors 1
          { information_density := 0, consistency_score := 0,
            completeness_score := 0, relevance_score := 0,
            contradiction_count := 0, coverage_frac := 0 })).accuracy ≤ 10 :=
  adjusted_scores_in_range { completeness := 5, accuracy := 5 } 1 _
    (by norm_num) (by norm_num) (by norm_num) (by norm_num) (by norm_num)
    (by norm_num)

/-- C6: with `research_data = ""` every call of `calculate_dynamic_score`
at an iteration < 3 reports `needs_more_research = true`, for every integer
base-score pair (the coverage of an empty text is 0, so a continuation
rule fires before the iteration ceiling; concepts extracted from the query
are nonempty strings, here an explicit hypothesis). -/
theorem empty_research_data_needs_more (bs : BaseScores) (iteration : ℤ)
    (qe : QueryExtraction) (hit : iteration < 3)
    (hc : ∀ c ∈ qe.concepts, c ≠ "") :
    (calculate_dynamic_score bs iteration "" qe).needs_more_research = true := by
  have hcov : calculate_coverage "" qe.concepts = 0 :=
    coverage_zero_of_no_hit (fun c hcm => containsLower_empty_of_ne (hc c hcm))
  show determine_research_continuation
      (calculate_overall_score
        (apply_dynamic_adjustment bs
          (calculate_adjustment_factors iteration
            (assess_information_quality "" qe)))
        (assess_information_quality "" qe))
      iteration (assess_information_quality "" qe)
      (get_progressive_critique_standards iteration) = true
  apply determine_true_of_low_coverage
  show calculate_coverage "" qe.concepts < 6 / 10
  rw [hcov]
  norm_num

/-- C6 witness: base scores 5/5, iteration 1, query concept "Python". -/
theorem empty_research_data_needs_more_witness :
    (1 : ℤ) < 3 ∧
    (calculate_dynamic_score { completeness := 5, accuracy := 5 } 1 ""
      { concepts := ["Python"], keywords := [] }).needs_more_research = true :=
  ⟨by norm_num,
   empty_research_data_needs_more { completeness := 5, accuracy := 5 } 1
     { concepts := ["Python"], keywords := [] } (by norm_num) (by decide)⟩

/-- C9: the quality assessment is total (in particular the line count that
is divided by in the density computation is always at least 1; the other
denominators are forced to at least 1 by `max`), and empty or
whitespace-only `research_data` yields information_density =
consistency_score = completeness_score = relevance_score = 0,
contradiction_count = 0 and coverage 0 (concepts extracted from the query
always contain a non-whitespace character, an explicit hypothesis). -/
theorem quality_assessment_total_and_zero_on_blank :
    (∀ l : List Char, 1 ≤ (splitNl l).length) ∧
    ∀ (research_data : String) (qe : QueryExtraction),
      pyStrip research_data.data = [] →
      (∀ c ∈ qe.concepts, ∃ x ∈ c.data, isPySpace x = false) →
      assess_information_quality research_data qe =
        { information_density := 0, consistency_score := 0,
          completeness_score := 0, relevance_score := 0,
          contradiction_count := 0, coverage_frac := 0 } :=
  ⟨splitNl_length_pos, fun rd qe h1 h2 => assess_space_zero rd qe h1 h2⟩

/-- C9 witness: whitespace-only research data with query concept
"Python". -/
theorem quality_assessment_total_and_zero_on_blank_witness :
    1 ≤ (splitNl " \t\n".data).length ∧
    assess_information_quality " \t\n"
        { concepts := ["Python"], keywords := ["python"] } =
      { information_density := 0, consistency_score := 0,
        completeness_score := 0, relevance_score := 0,
        contradiction_count := 0, coverage_frac := 0 } :=
  ⟨quality_assessment_total_and_zero_on_blank.1 " \t\n".data,
   quality_assessment_total_and_zero_on_blank.2 " \t\n"
     { concepts := ["Python"], keywords := ["python"] } (by decide) (by decide)⟩

/-- C5 counterexample: on the text `但是` the consistency score is 0.9
(one alternation match), but `_count_contradictions` reports 2 (the
indicator `但是` is listed twice), so the claimed identity
`consistency = max(0, min(1, 1 − 0.1·contradiction_count))` fails. -/
theorem consistency_vs_contradiction_count_counterexample :
    calculate_consistency_score "但是" = 9 / 10 ∧
    count_contradictions "但是" = 2 ∧
    calculate_consistency_score "但是" ≠
      max 0 (min 1 (1 - (count_contradictions "但是" : ℚ) * (1 / 10))) := by
  have h1 : calculate_consistency_score "但是" = 9 / 10 := by
    unfold calculate_consistency_score
    rw [if_neg (by decide), show consistency_pattern_count "但是" = 1 from by decide]
    norm_num [min_def, max_def]
  have h2 : count_contradictions "但是" = 2 := by decide
  refine ⟨h1, h2, ?_⟩
  rw [h1, h2]
  norm_num [min_def, max_def]

/-- C5 amended: for non-blank text the consistency score equals
`max(0, min(1, 1 − 0.1·P))` where `P` counts the non-overlapping matches
of the four contradiction-pattern alternations — a count that differs in
general from `_count_contradictions` (which sums per-indicator hits over a
list that duplicates `但是` and counts overlapping prefixed indicators
separately). -/
theorem consistency_score_formula (research_data : String)
    (h : pyStrip research_data.data ≠ []) :
    calculate_consistency_score research_data =
      max 0 (min 1
        (1 - (consistency_pattern_count research_data : ℚ) * (1 / 10))) := by
  unfold calculate_consistency_score
  rw [if_neg h]
  have hc : (0 : ℚ) ≤ (consistency_pattern_count research_data : ℚ) :=
    Nat.cast_nonneg _
  simp only [min_def, max_def]
  split_ifs <;> linarith

/-- C5 witness: the amended formula at a concrete non-blank text. -/
theorem consistency_score_formula_witness :
    calculate_consistency_score "test" =
      max 0 (min 1 (1 - (consistency_pattern_count "test" : ℚ) * (1 / 10))) :=
  consistency_score_formula "test" (by decide)

/-- C7 counterexample: when the underlying classifier call throws,
`execute_task` swallows the exception (`success = False`) and
`classify_query` returns the default `deep_dive`; the classify node
therefore records `success = True` with intent `deep_dive` — the workflow
does not mark the run failed. -/
theorem classifier_hard_failure_counterexample :
    classify_query (.error "boom") = "deep_dive" ∧
    (classify_node (.error "boom") (initial_state "q" 3)).success = true ∧
    (classify_node (.error "boom") (initial_state "q" 3)).intent = "deep_dive" :=
  ⟨by decide, rfl, by decide⟩

/-- C7 amended: a throwing underlying call is recovered locally exactly
like an unparseable result: `classify_query` returns `deep_dive` and the
classify node reports success; only a parseable label is passed through. -/
theorem classify_failure_defaults_locally (e r : String) (s : GraphState) :
    classify_query (.error e) = "deep_dive" ∧
    (classify_node (.error e) s).success = true ∧
    (classify_node (.error e) s).intent = "deep_dive" ∧
    (strip_lower r ∉ intent_labels → classify_query (.ok r) = "deep_dive") ∧
    (strip_lower r ∈ intent_labels → classify_query (.ok r) = strip_lower r) := by
  refine ⟨rfl, rfl, rfl, ?_, ?_⟩
  · intro hr
    show (if strip_lower r ∈ intent_labels then strip_lower r else "deep_dive") =
      "deep_dive"
    rw [if_neg hr]
  · intro hr
    show (if strip_lower r ∈ intent_labels then strip_lower r else "deep_dive") =
      strip_lower r
    rw [if_pos hr]

/-- C7 witness: a thrown call and a parseable label, concretely. -/
theorem classify_failure_defaults_locally_witness :
    classify_query (.error "boom") = "deep_dive" ∧
    classify_query (.ok " Comparison ") = strip_lower " Comparison " :=
  ⟨(classify_failure_defaults_locally "boom" " Comparison "
      (initial_state "q" 3)).1,
   (classify_failure_defaults_locally "boom" " Comparison "
      (initial_state "q" 3)).2.2.2.2 (by decide)⟩

/-- C8 counterexample: on the first successful research pass (empty
accumulated data) the findings are stored verbatim, with no
`--- 第N轮研究 ---` section header. -/
theorem first_pass_header_counterexample :
    (research_node { success := true, research_data := "X", error := "" }
        (initial_state "q" 3)).researched_data = "X" ∧
    hasSub "第1轮研究".data
      (research_node { success := true, research_data := "X", error := "" }
        (initial_state "q" 3)).researched_data.data = false ∧
    hasSub "---".data
      (research_node { success := true, research_data := "X", error := "" }
        (initial_state "q" 3)).researched_data.data = false := by
  decide

/-- C8 amended: every research pass increments `research_iteration` by
exactly 1 before consulting the researcher (also on failure, with no
rollback), and `researched_data` only ever grows by appending; on success
the findings are appended under the iteration-numbered section header when
data is already accumulated, and verbatim (headerless) on the first
pass. -/
theorem research_node_increment_append (o : ResearchOutcome) (s : GraphState) :
    (research_node o s).research_iteration = s.research_iteration + 1 ∧
    (∃ t : String, (research_node o s).researched_data = s.researched_data ++ t) ∧
    (o.success = true → s.researched_data ≠ "" →
      (research_node o s).researched_data =
        s.researched_data ++ "\n\n--- 第" ++ toString (s.research_iteration + 1) ++
          "轮研究 ---\n" ++ o.research_data) ∧
    (o.success = true → s.researched_data = "" →
      (research_node o s).researched_data = o.research_data) ∧
    (o.success = false → (research_node o s).researched_data = s.researched_data) := by
  refine ⟨research_node_iteration o s, ?_, ?_, ?_, ?_⟩
  · unfold research_node
    dsimp only
    split
    · split
      · refine ⟨"\n\n--- 第" ++ toString (s.research_iteration + 1) ++
          "轮研究 ---\n" ++ o.research_data, ?_⟩
        simp [String.append_assoc]
      · rename_i hne
        rw [not_not] at hne
        exact ⟨o.research_data, by rw [hne, String.empty_append]⟩
    · exact ⟨"", (String.append_empty _).symm⟩
  · intro ho hne
    unfold research_node
    dsimp only
    rw [if_pos ho, if_pos hne]
  · intro ho hemp
    unfold research_node
    dsimp only
    rw [if_pos ho, if_neg (by rw [not_not]; exact hemp)]
  · intro ho
    unfold research_node
    dsimp only
    rw [if_neg (by rw [ho]; exact Bool.false_ne_true)]

/-- C8 witness: a successful second pass appends under the header
`--- 第2轮研究 ---`. -/
theorem research_node_increment_append_witness :
    (research_node { success := true, research_data := "B", error := "" }
        { original_query := "q", intent := "", plan := "",
          research_queries := [], researched_data := "A",
          research_iteration := 1, max_iterations := 3,
          critique_feedback := "", needs_more_research := false,
          final_report := "", error_message := "",
          success := true }).researched_data =
      "A" ++ "\n\n--- 第" ++ toString (1 + 1) ++ "轮研究 ---\n" ++ "B" :=
  (research_node_increment_append
    { success := true, research_data := "B", error := "" }
    { original_query := "q", intent := "", plan := "",
      research_queries := [], researched_data := "A",
      research_iteration := 1, max_iterations := 3,
      critique_feedback := "", needs_more_research := false,
      final_report := "", error_message := "",
      success := true }).2.2.1 rfl (by decide)

/-- C2 counterexample: with base scores 1/1 at iteration 3 on empty
research data the overall score is 0.6, which is below the claimed lower
bound of 1.0 (the adjusted scores clamp to 1 and both consistency and
relevance are 0). -/
theorem overall_score_range_counterexample :
    (calculate_dynamic_score { completeness := 1, accuracy := 1 } 3 ""
        { concepts := [], keywords := [] }).overall_score = 3 / 5 ∧
    (calculate_dynamic_score { completeness := 1, accuracy := 1 } 3 ""
        { concepts := [], keywords := [] }).overall_score < 1 := by
  have hqm : assess_information_quality "" { concepts := [], keywords := [] } =
      { information_density := 0, consistency_score := 0, completeness_score := 0,
        relevance_score := 0, contradiction_count := 0, coverage_frac := 0 } :=
    assess_space_zero _ _ (by decide)
      (fun c hc => absurd hc (List.not_mem_nil c))
  have hfac : calculate_adjustment_factors 3
      { information_density := 0, consistency_score := 0, completeness_score := 0,
        relevance_score := 0, contradiction_count := 0, coverage_frac := 0 } =
      { iteration_bonus := 0, complexity_penalty := ((3 - 2 : ℤ) : ℚ) * (2 / 10),
        consistency_bonus := 0, density_bonus := 0 } := by
    unfold calculate_adjustment_factors
    dsimp only
    rw [if_neg (by norm_num : ¬ (3 : ℤ) ≤ 2), if_pos (by norm_num : (2 : ℤ) < 3),
      if_neg (by norm_num : ¬ (8 / 10 : ℚ) < 0),
      if_neg (by norm_num : ¬ (6 / 10 : ℚ) < 0),
      if_neg (by norm_num : ¬ (7 / 10 : ℚ) < 0),
      if_neg (by norm_num : ¬ (5 / 10 : ℚ) < 0)]
  have hr : pyRound (4 / 5) = 1 := by
    unfold pyRound
    rw [show ⌊(4 / 5 : ℚ)⌋ = 0 from by norm_num [Int.floor_eq_iff]]
    norm_num
  have hadj : apply_dynamic_adjustment { completeness := 1, accuracy := 1 }
      { iteration_bonus := 0, complexity_penalty := ((3 - 2 : ℤ) : ℚ) * (2 / 10),
        consistency_bonus := 0, density_bonus := 0 } =
      { completeness := 1, accuracy := 1 } := by
    unfold apply_dynamic_adjustment adjust_score
    dsimp only
    rw [show ((1 : ℤ) : ℚ) + (0 + 0 + 0 - ((3 - 2 : ℤ) : ℚ) * (2 / 10)) = 4 / 5
      from by push_cast; norm_num, hr]
    decide
  have he : (calculate_dynamic_score { completeness := 1, accuracy := 1 } 3 ""
      { concepts := [], keywords := [] }).overall_score =
      calculate_overall_score
        (apply_dynamic_adjustment { completeness := 1, accuracy := 1 }
          (calculate_adjustment_factors 3
            (assess_information_quality "" { concepts := [], keywords := [] })))
        (assess_information_quality "" { concepts := [], keywords := [] }) := rfl
  have hval : calculate_overall_score { completeness := 1, accuracy := 1 }
      { information_density := 0, consistency_score := 0, completeness_score := 0,
        relevance_score := 0, contradiction_count := 0, coverage_frac := 0 } =
      3 / 5 := by
    unfold calculate_overall_score pyRound1
    dsimp only
    rw [show (((1 : ℤ) : ℚ) * (3 / 10) + ((1 : ℤ) : ℚ) * (3 / 10) +
        (0 : ℚ) * 10 * (2 / 10) + (0 : ℚ) * 10 * (2 / 10)) * 10 = 6
      from by push_cast; norm_num]
    rw [show pyRound 6 = 6 from by
      unfold pyRound
      rw [show ⌊(6 : ℚ)⌋ = 6 from by norm_num]
      norm_num]
    norm_num
  rw [he, hqm, hfac, hadj, hval]
  norm_num

/-- C2 amended: the overall score always equals the weighted sum
`adjusted.completeness·0.3 + adjusted.accuracy·0.3 + consistency·10·0.2 +
relevance·10·0.2` rounded to one decimal, and lies in [0.6, 10.0] (not
[1.0, 10.0]: the lower end is 0.6, attained in the counterexample). -/
theorem overall_score_formula_and_range (bs : BaseScores) (iteration : ℤ)
    (research_data : String) (qe : QueryExtraction) :
    (calculate_dynamic_score bs iteration research_data qe).overall_score =
      pyRound1
        (((calculate_dynamic_score bs iteration research_data
            qe).completeness_score : ℚ) * (3 / 10) +
          ((calculate_dynamic_score bs iteration research_data
            qe).accuracy_score : ℚ) * (3 / 10) +
          (calculate_dynamic_score bs iteration research_data
            qe).quality_metrics.consistency_score * 10 * (2 / 10) +
          (calculate_dynamic_score bs iteration research_data
            qe).quality_metrics.relevance_score * 10 * (2 / 10)) ∧
    3 / 5 ≤ (calculate_dynamic_score bs iteration research_data qe).overall_score ∧
    (calculate_dynamic_score bs iteration research_data qe).overall_score ≤ 10 := by
  refine ⟨rfl, ?_⟩
  have he : (calculate_dynamic_score bs iteration research_data qe).overall_score =
      pyRound1
        ((adjust_score bs.completeness
            (calculate_adjustment_factors iteration
              (assess_information_quality research_data qe)) : ℚ) * (3 / 10) +
          (adjust_score bs.accuracy
            (calculate_adjustment_factors iteration
              (assess_information_quality research_data qe)) : ℚ) * (3 / 10) +
          calculate_consistency_score research_data * 10 * (2 / 10) +
          calculate_relevance_score research_data qe.keywords * 10 * (2 / 10)) := rfl
  rw [he]
  have hcb := adjust_score_bounds bs.completeness
    (calculate_adjustment_factors iteration
      (assess_information_quality research_data qe))
  have hab := adjust_score_bounds bs.accuracy
    (calculate_adjustment_factors iteration
      (assess_information_quality research_data qe))
  have hcons := consistency_score_bounds research_data
  have hrel := relevance_score_bounds research_data qe.keywords
  have c1 : (1 : ℚ) ≤ (adjust_score bs.completeness
      (calculate_adjustment_factors iteration
        (assess_information_quality research_data qe)) : ℚ) := by
    exact_mod_cast hcb.1
  have c2 : (adjust_score bs.completeness
      (calculate_adjustment_factors iteration
        (assess_information_quality research_data qe)) : ℚ) ≤ 10 := by
    exact_mod_cast hcb.2
  have a1 : (1 : ℚ) ≤ (adjust_score bs.accuracy
      (calculate_adjustment_factors iteration
        (assess_information_quality research_data qe)) : ℚ) := by
    exact_mod_cast hab.1
  have a2 : (adjust_score bs.accuracy
      (calculate_adjustment_factors iteration
        (assess_information_quality research_data qe)) : ℚ) ≤ 10 := by
    exact_mod_cast hab.2
  exact pyRound1_bounds (by linarith [hcons.1, hrel.1]) (by linarith [hcons.2, hrel.2])

/-- C3: with `max_iterations = 1` and a critic that always succeeds and
always reports `needs_more_research = true`, exactly one research pass
occurs (the research node increments before researching, and
`_should_continue` consults the caller-level ceiling before the critic's
verdict); in general, for any oracles and any `max_iterations ≥ 1`, the
number of research passes never exceeds `max_iterations`. -/
theorem research_loop_respects_ceiling :
    (∀ (cc : Except String String) (p : PlanOutcome)
        (research : ℕ → ResearchOutcome) (critic : ℕ → CritiqueOutcome)
        (w : Except String String) (q : String),
      (∀ k, (critic k).success = true ∧ (critic k).needs_more_research = true) →
      (run_workflow cc p research critic w q 1).research_iteration = 1) ∧
    (∀ (cc : Except String String) (p : PlanOutcome)
        (research : ℕ → ResearchOutcome) (critic : ℕ → CritiqueOutcome)
        (w : Except String String) (q : String) (m : ℕ), 1 ≤ m →
      (run_workflow cc p research critic w q m).research_iteration ≤ m) := by
  constructor
  · intro cc p research critic w q hcrit
    unfold run_workflow
    dsimp only
    rw [write_report_node_iteration]
    set s2 := plan_node p (classify_node cc (initial_state q 1)) with hs2
    have hiter : s2.research_iteration = 0 := by
      rw [hs2, plan_node_iteration]; rfl
    have hmax : s2.max_iterations = 1 := by
      rw [hs2, plan_node_max]; rfl
    rw [show (1 + 1 : ℕ) = 0 + 1 + 1 from rfl]
    rw [research_critique_loop]
    set s3 := research_node (research s2.research_iteration) s2 with hs3
    set s4 := critique_node (critic s3.research_iteration) s3 with hs4
    have h4i : s4.research_iteration = 1 := by
      rw [hs4, critique_node_iteration, hs3, research_node_iteration, hiter]
    have h4m : s4.max_iterations = 1 := by
      rw [hs4, critique_node_max, hs3, research_node_max, hmax]
    have hsc : should_continue s4 = false := by
      by_contra hcn
      rw [Bool.not_eq_false] at hcn
      have hlt := ((should_continue_iff s4).mp hcn).2.1
      rw [h4i, h4m] at hlt
      omega
    rw [hsc, if_neg (by exact Bool.false_ne_true)]
    exact h4i
  · intro cc p research critic w q m hm
    unfold run_workflow
    dsimp only
    rw [write_report_node_iteration]
    set s2 := plan_node p (classify_node cc (initial_state q m)) with hs2
    have hiter : s2.research_iteration = 0 := by
      rw [hs2, plan_node_iteration]; rfl
    have hmax : s2.max_iterations = m := by
      rw [hs2, plan_node_max]; rfl
    have hloop := loop_iteration_le research critic (m + 1) s2
      (by rw [hiter, hmax]; omega)
    rw [hmax] at hloop
    exact hloop

/-- C3 witness: one concrete run at the ceiling 1 and one at ceiling 3. -/
theorem research_loop_respects_ceiling_witness :
    (run_workflow (.ok "deep_dive")
        { success := true, plan := "p", queries := [], error := "" }
        (fun _ => { success := true, research_data := "d", error := "" })
        (fun _ => { success := true, critique := "c",
                    needs_more_research := true, error := "" })
        (.ok "r") "q" 1).research_iteration = 1 ∧
    (run_workflow (.ok "deep_dive")
        { success := true, plan := "p", queries := [], error := "" }
        (fun _ => { success := true, research_data := "d", error := "" })
        (fun _ => { success := true, critique := "c",
                    needs_more_research := true, error := "" })
        (.ok "r") "q" 3).research_iteration ≤ 3 :=
  ⟨research_loop_respects_ceiling.1 _ _ _ _ _ _ (fun _ => ⟨rfl, rfl⟩),
   research_loop_respects_ceiling.2 _ _ _ _ _ _ 3 (by norm_num)⟩

end DeepDive
